import Mathlib

/-!
Verification of the image-captioning web service (`src/main.rs`).

The development shallowly embeds the two request-handling routines of the
program — `generate_caption` and `upload_image` — as pure Lean functions.
External library calls (image decoding, JPEG re-encoding, base64 encoding,
the HTTP transport, and `serde_json` parsing) are modelled as oracle
parameters: the handler's control flow, status-code mapping, request
construction, JSON-path extraction and panic points are translated
faithfully from the Rust source.
-/

namespace Captioner

/-- A JSON value, mirroring `serde_json::Value` as far as the program uses
it (numbers never matter to the extraction path, so they are kept as `Int`). -/
inductive Json where
  | null : Json
  | bool : Bool → Json
  | num : Int → Json
  | str : String → Json
  | arr : List Json → Json
  | obj : List (String × Json) → Json

/-- Object-field lookup on an association list, first match wins. -/
def getFieldAux : List (String × Json) → String → Json
  | [], _ => .null
  | (k', v) :: rest, k => if k' = k then v else getFieldAux rest k

/-- `value[key]` for `serde_json::Value`: returns `Null` when `self` is not
an object or the key is absent. -/
def Json.getField : Json → String → Json
  | .obj fs, k => getFieldAux fs k
  | _, _ => .null

/-- `value[i]` for `serde_json::Value`: returns `Null` when `self` is not an
array or the index is out of bounds. -/
def Json.getIndex : Json → Nat → Json
  | .arr xs, i => xs.getD i .null
  | _, _ => .null

/-- `Value::as_str`: `some s` exactly on string values. -/
def Json.asStr : Json → Option String
  | .str s => some s
  | _ => none

/-- The extraction `result["candidates"][0]["content"]["parts"][0]["text"].as_str()`
performed by `generate_caption` on the parsed upstream body. -/
def extractCaption (j : Json) : Option String :=
  (((((j.getField "candidates").getIndex 0).getField "content").getField
      "parts").getIndex 0).getField "text" |>.asStr

/-! ### The diagnostic body preview (UTF-8 byte slicing)

`generate_caption` prints `&response_text[..response_text.len().min(500)]`.
A Rust `String` is valid UTF-8, so we model the response body as a
`List Char`; its byte length and the char-boundary predicate below agree
with `str::len` and `str::is_char_boundary` on the encoded string.
Slicing `&s[..i]` panics exactly when `i` is not a char boundary. -/

/-- Number of bytes of the UTF-8 encoding of a scalar value
(`char::len_utf8`). -/
def utf8Size (c : Char) : Nat :=
  if c.toNat < 0x80 then 1
  else if c.toNat < 0x800 then 2
  else if c.toNat < 0x10000 then 3
  else 4

/-- Byte length of the UTF-8 encoding of the string (`str::len`). -/
def byteLen (cs : List Char) : Nat := (cs.map utf8Size).sum

/-- `str::is_char_boundary i`: byte index `i` falls on the start of a
character or at the end of the string (indices past the end are not
boundaries, matching Rust). -/
def isCharBoundary : List Char → Nat → Bool
  | _, 0 => true
  | [], _ + 1 => false
  | c :: cs, i + 1 =>
    if i + 1 < utf8Size c then false else isCharBoundary cs (i + 1 - utf8Size c)

/-- The slice `&response_text[..response_text.len().min(500)]` panics on
this body. -/
def previewPanics (body : List Char) : Bool :=
  ! isCharBoundary body (min (byteLen body) 500)

/-! ### The upstream request as built by `generate_caption` -/

/-- The fixed endpoint URL prefix (everything before the `?key=` query
parameter). -/
def geminiEndpoint : String :=
  "https://generativelanguage.googleapis.com/v1beta/models/gemini-2.5-flash:generateContent"

/-- The fixed instruction prompt embedded in every request payload. -/
def promptText : String :=
  "Describe this image in detail. Provide a clear, descriptive caption."

/-- The JSON payload built by `generate_caption` via `serde_json::json!`. -/
def buildPayload (image_base64 : String) : Json :=
  .obj [("contents", .arr [
    .obj [("parts", .arr [
      .obj [("text", .str promptText)],
      .obj [("inline_data", .obj [
        ("mime_type", .str "image/jpeg"),
        ("data", .str image_base64)])]])]])]

/-- The one outbound HTTP request: URL with the credential as its query
parameter, a `Content-Type` header, and the JSON body. -/
structure HttpRequest where
  url : String
  contentType : String
  body : Json

/-- The request `generate_caption` issues for a given base64 image and
credential: POST to `{endpoint}?key={api_key}` with the fixed payload. -/
def buildRequest (image_base64 api_key : String) : HttpRequest :=
  { url := geminiEndpoint ++ "?key=" ++ api_key
    contentType := "application/json"
    body := buildPayload image_base64 }

/-! ### Upstream behaviour (the network oracle) -/

/-- What the transport returns for the one POST. `parsed` models the later
`serde_json::from_str(&response_text)` call on the body text (`none` =
the body is not valid JSON); the parser itself is a library call and is
abstracted. -/
structure Upstream where
  status : Nat
  body : List Char
  parsed : Option Json

/-- Result of `send().await` / `text().await`: either a transport-level
error (propagated by `?`) or a complete textual response. -/
inductive NetResult where
  | transportErr : NetResult
  | response : Upstream → NetResult

/-- `StatusCode::is_success()`: 2xx. -/
def statusIsSuccess (n : Nat) : Bool := decide (200 ≤ n ∧ n < 300)

/-- The error variants `generate_caption` can return (all become
`Box<dyn Error>` in the source): a transport failure, the
`"API Error {status}: {body}"` error for a non-success status, a
`serde_json` parse failure, and the `"No caption in response"` error. -/
inductive GenErr where
  | transport : GenErr
  | apiError : Nat → List Char → GenErr
  | jsonParse : GenErr
  | noCaption : GenErr
deriving DecidableEq

/-- How one call to `generate_caption` ends: a panic (the body-preview
slice), an `Err`, or `Ok(caption)`. -/
inductive GenOutcome where
  | panic : GenOutcome
  | err : GenErr → GenOutcome
  | ok : String → GenOutcome
deriving DecidableEq

/-- `generate_caption` from the source, with the network behaviour as an
oracle from the built request. In source order: build URL and payload,
send (transport errors propagate), print the body preview (panics when the
slice cuts a character), return `Err` on non-2xx carrying status and body,
parse the body as JSON, extract the caption path, `Err` when absent or not
a string. -/
def generate_caption (net : HttpRequest → NetResult)
    (image_base64 api_key : String) : GenOutcome :=
  match net (buildRequest image_base64 api_key) with
  | .transportErr => .err .transport
  | .response r =>
    if previewPanics r.body then .panic
    else if statusIsSuccess r.status then
      match r.parsed with
      | none => .err .jsonParse
      | some j =>
        match extractCaption j with
        | none => .err .noCaption
        | some c => .ok c
    else .err (.apiError r.status r.body)

/-! ### The `/upload` handler -/

/-- One field of the multipart body as the handler reads it: its (never
inspected) name, whether `field.bytes().await` errors (the handler
`unwrap`s that result, so an error is a panic), and the bytes read. -/
structure RawField where
  name : Option String
  readErr : Bool
  data : List Nat
deriving DecidableEq

/-- The multipart body: `nextErr` models `multipart.next_field().await`
returning `Err` (the handler `unwrap`s it, so this is a panic), `fields`
the sequence of fields the stream yields before ending. -/
structure MultipartBody where
  nextErr : Bool
  fields : List RawField
deriving DecidableEq

/-- The serialized success body `CaptionResponse`. -/
structure CaptionResponse where
  caption : String
  model : String
  processing_time_ms : Nat
deriving DecidableEq

/-- How the handler ends: a panic, `Err(StatusCode)` (a bare status with no
body, hence no `caption` field), or `Ok(Json(CaptionResponse))`. -/
inductive HandlerOutcome where
  | panic : HandlerOutcome
  | errStatus : Nat → HandlerOutcome
  | ok : CaptionResponse → HandlerOutcome
deriving DecidableEq

/-- The handler's outcome together with the number of outbound network
calls it issued. -/
structure RunResult where
  outcome : HandlerOutcome
  netCalls : Nat
deriving DecidableEq

/-- The fixed `model` label put in every success response. -/
def modelLabel : String := "Google Gemini 1.5 Flash"

/-- `upload_image` from the source. Oracles: `decode` is
`image::load_from_memory`, `encodeJpeg` is `DynamicImage::write_to` with
`ImageOutputFormat::Jpeg(85)`, `b64` is the standard base64 encoder,
`net` the transport, `elapsedMs` the measured `start.elapsed().as_millis()`.
Control flow: `next_field` `Err` ⇒ panic; no field ⇒ 400; `bytes()` `Err`
⇒ panic; decode failure ⇒ 400; re-encode failure ⇒ 500; then exactly one
`generate_caption` call, whose `Err` ⇒ 500 and `Ok` ⇒ the JSON response —
every path through the loop body returns, so only the first field is ever
read. -/
def upload_image {Img : Type} (decode : List Nat → Option Img)
    (encodeJpeg : Img → Option (List Nat)) (b64 : List Nat → String)
    (net : HttpRequest → NetResult) (api_key : String) (elapsedMs : Nat)
    (mp : MultipartBody) : RunResult :=
  if mp.nextErr then ⟨.panic, 0⟩
  else
    match mp.fields with
    | [] => ⟨.errStatus 400, 0⟩
    | f :: _ =>
      if f.readErr then ⟨.panic, 0⟩
      else
        match decode f.data with
        | none => ⟨.errStatus 400, 0⟩
        | some img =>
          match encodeJpeg img with
          | none => ⟨.errStatus 500, 0⟩
          | some jpeg_bytes =>
            match generate_caption net (b64 jpeg_bytes) api_key with
            | .panic => ⟨.panic, 1⟩
            | .err _ => ⟨.errStatus 500, 1⟩
            | .ok caption =>
              ⟨.ok ⟨caption, modelLabel, elapsedMs⟩, 1⟩

/-! ### Helper lemmas about UTF-8 boundaries -/

theorem utf8Size_pos (c : Char) : 0 < utf8Size c := by
  unfold utf8Size
  repeat' split
  all_goals simp

theorem isCharBoundary_byteLen (cs : List Char) :
    isCharBoundary cs (byteLen cs) = true := by
  induction cs with
  | nil => rfl
  | cons c cs ih =>
    have hpos := utf8Size_pos c
    have hs : byteLen (c :: cs) = utf8Size c + byteLen cs := by
      simp [byteLen]
    obtain ⟨k, hk⟩ : ∃ k, utf8Size c + byteLen cs = k + 1 :=
      ⟨utf8Size c + byteLen cs - 1, by omega⟩
    rw [hs, hk]
    have hlt : ¬ (k + 1 < utf8Size c) := by omega
    have hsub : k + 1 - utf8Size c = byteLen cs := by omega
    simp only [isCharBoundary, if_neg hlt, hsub]
    exact ih

theorem utf8Size_ascii (c : Char) (h : c.toNat < 128) : utf8Size c = 1 := by
  unfold utf8Size
  rw [if_pos h]

theorem isCharBoundary_ascii (cs : List Char) (h : ∀ c ∈ cs, c.toNat < 128) :
    ∀ i, i ≤ cs.length → isCharBoundary cs i = true := by
  induction cs with
  | nil =>
    intro i hi
    have : i = 0 := by simpa using hi
    subst this
    rfl
  | cons c cs ih =>
    intro i hi
    match i with
    | 0 => rfl
    | i + 1 =>
      have hc : utf8Size c = 1 := utf8Size_ascii c (h c (by simp))
      have hlt : ¬ (i + 1 < utf8Size c) := by omega
      have hsub : i + 1 - utf8Size c = i := by omega
      simp only [isCharBoundary, if_neg hlt, hsub]
      exact ih (fun c' hc' => h c' (List.mem_cons_of_mem c hc')) i
        (by simpa using hi)

theorem byteLen_ascii (cs : List Char) (h : ∀ c ∈ cs, c.toNat < 128) :
    byteLen cs = cs.length := by
  induction cs with
  | nil => rfl
  | cons c cs ih =>
    have hc : utf8Size c = 1 := utf8Size_ascii c (h c (by simp))
    have : byteLen (c :: cs) = utf8Size c + byteLen cs := by simp [byteLen]
    rw [this, hc, ih (fun c' hc' => h c' (List.mem_cons_of_mem c hc'))]
    simp [Nat.add_comm]

theorem byteLen_append (xs ys : List Char) :
    byteLen (xs ++ ys) = byteLen xs + byteLen ys := by
  simp [byteLen]

theorem byteLen_replicate (n : Nat) (c : Char) :
    byteLen (List.replicate n c) = n * utf8Size c := by
  simp [byteLen, List.map_replicate, List.sum_replicate, smul_eq_mul]

theorem isCharBoundary_replicate_ascii_append (c : Char) (hc : utf8Size c = 1)
    (rest : List Char) (i : Nat) :
    ∀ n, isCharBoundary (List.replicate n c ++ rest) (n + i) =
      isCharBoundary rest i := by
  intro n
  induction n with
  | zero => simp
  | succ n ih =>
    have hrep : List.replicate (n + 1) c ++ rest =
        c :: (List.replicate n c ++ rest) := by
      simp [List.replicate_succ]
    have hidx : n + 1 + i = (n + i) + 1 := by omega
    have hlt : ¬ ((n + i) + 1 < utf8Size c) := by omega
    have hsub : (n + i) + 1 - utf8Size c = n + i := by omega
    rw [hrep, hidx]
    simp only [isCharBoundary, if_neg hlt, hsub]
    exact ih

/-- A 501-byte valid UTF-8 body on which the preview slice panics: 499
ASCII characters followed by a two-byte character, so byte index 500 falls
inside the final character. -/
def badBody : List Char := List.replicate 499 'a' ++ ['é']

theorem badBody_panics : previewPanics badBody = true := by
  unfold previewPanics badBody
  have h1 : byteLen (List.replicate 499 'a' ++ ['é']) = 501 := by
    have ha : utf8Size 'a' = 1 := by decide
    have he : byteLen ['é'] = 2 := by decide
    rw [byteLen_append, byteLen_replicate, ha, he]
  rw [h1]
  have h2 : min 501 500 = 500 := by norm_num
  rw [h2]
  have h3 : (500 : Nat) = 499 + 1 := by norm_num
  rw [h3, isCharBoundary_replicate_ascii_append 'a' (by decide) ['é'] 1 499]
  decide

/-! ### Claim C9 -/

/-- Claim C9 counterexample: the diagnostic preview slice is not total.
On a 501-byte valid UTF-8 body whose byte 500 is the middle of a two-byte
character, `&response_text[..len.min(500)]` panics. -/
theorem preview_slice_panics_example : previewPanics badBody = true :=
  badBody_panics

/-- Claim C9 (amended): the preview slice never panics when the body is at
most 500 bytes long, and never panics on an all-ASCII body; it can panic
when byte index 500 cuts a multi-byte character. -/
theorem preview_slice_total_cases (body : List Char) :
    (byteLen body ≤ 500 → previewPanics body = false) ∧
    ((∀ c ∈ body, c.toNat < 128) → previewPanics body = false) := by
  constructor
  · intro h
    unfold previewPanics
    rw [Nat.min_eq_left h, isCharBoundary_byteLen]
    rfl
  · intro h
    unfold previewPanics
    have h1 : byteLen body = body.length := byteLen_ascii body h
    have h2 : min (byteLen body) 500 ≤ body.length := by
      have := Nat.min_le_left (byteLen body) 500
      omega
    rw [isCharBoundary_ascii body h _ h2]
    rfl

/-- Claim C9 witness: a concrete short ASCII body on which the amended
statement applies. -/
theorem preview_slice_total_cases_witness : previewPanics ['o', 'k'] = false :=
  (preview_slice_total_cases ['o', 'k']).1 (by decide)

/-! ### Claim C1 -/

/-- Claim C1: when the first field's bytes are read but do not decode as a
supported raster image, `/upload` answers 400 (Bad Request) and no
outbound network call is issued. -/
theorem upload_rejects_undecodable_image {Img : Type}
    (decode : List Nat → Option Img) (encodeJpeg : Img → Option (List Nat))
    (b64 : List Nat → String) (net : HttpRequest → NetResult)
    (api_key : String) (t : Nat) (f : RawField) (rest : List RawField)
    (hread : f.readErr = false) (hdec : decode f.data = none) :
    upload_image decode encodeJpeg b64 net api_key t ⟨false, f :: rest⟩ =
      ⟨.errStatus 400, 0⟩ := by
  unfold upload_image
  simp [hread, hdec]

/-- Claim C1 witness: a concrete run with a decoder that rejects the
bytes. -/
theorem upload_rejects_undecodable_image_witness :
    upload_image (fun _ => (none : Option Unit)) (fun _ => some [])
      (fun _ => "") (fun _ => .transportErr) "k" 7
      ⟨false, [⟨some "image", false, [1, 2, 3]⟩]⟩ = ⟨.errStatus 400, 0⟩ :=
  upload_rejects_undecodable_image _ _ _ _ _ _ _ _ rfl rfl

/-! ### Claim C2 -/

/-- Claim C2: a multipart body that yields no field at all makes `/upload`
answer 400 (Bad Request), with no network call. -/
theorem upload_empty_multipart_400 {Img : Type}
    (decode : List Nat → Option Img) (encodeJpeg : Img → Option (List Nat))
    (b64 : List Nat → String) (net : HttpRequest → NetResult)
    (api_key : String) (t : Nat) :
    upload_image decode encodeJpeg b64 net api_key t ⟨false, []⟩ =
      ⟨.errStatus 400, 0⟩ := rfl

/-! ### Claim C3 -/

/-- A well-formed upstream body in which the caption text at
`candidates[0].content.parts[0].text` is the empty string. -/
def emptyCaptionJson : Json :=
  .obj [("candidates", .arr [
    .obj [("content", .obj [("parts", .arr [
      .obj [("text", .str "")]])])]])]

/-- Claim C3 counterexample: a fully successful run can return HTTP 200
with an empty `caption` — the code forwards whatever string the upstream
put at the caption path and never checks it is non-empty. -/
theorem upload_empty_caption_possible :
    upload_image (fun _ => some ()) (fun _ => some []) (fun _ => "")
      (fun _ => .response ⟨200, [], some emptyCaptionJson⟩) "k" 7
      ⟨false, [⟨some "image", false, [0]⟩]⟩ =
      ⟨.ok ⟨"", modelLabel, 7⟩, 1⟩ ∧ "".length = 0 :=
  ⟨rfl, rfl⟩

/-- Claim C3 (amended): when the first field is read, decoding and
re-encoding succeed, and the caption client returns `Ok(c)`, the handler
answers 200 with body `{caption := c, model := "Google Gemini 1.5 Flash",
processing_time_ms := t}` after exactly one network call — the `model`
label is the fixed constant (never taken from the upstream response) and
`processing_time_ms` is non-negative, but `caption` is exactly the
upstream-extracted string and may be empty. -/
theorem upload_success_response_shape {Img : Type}
    (decode : List Nat → Option Img) (encodeJpeg : Img → Option (List Nat))
    (b64 : List Nat → String) (net : HttpRequest → NetResult)
    (api_key : String) (t : Nat) (f : RawField) (rest : List RawField)
    (img : Img) (jb : List Nat) (c : String)
    (hread : f.readErr = false) (hdec : decode f.data = some img)
    (henc : encodeJpeg img = some jb)
    (hcap : generate_caption net (b64 jb) api_key = .ok c) :
    upload_image decode encodeJpeg b64 net api_key t ⟨false, f :: rest⟩ =
      ⟨.ok ⟨c, modelLabel, t⟩, 1⟩ ∧ 0 ≤ (t : Int) := by
  constructor
  · unfold upload_image
    simp [hread, hdec, henc, hcap]
  · omega

/-- Claim C3 witness: a concrete all-success run returning caption
"A cat.". -/
theorem upload_success_response_shape_witness :
    upload_image (fun _ => some ()) (fun _ => some []) (fun _ => "")
      (fun _ => .response ⟨200, [], some (.obj [("candidates", .arr [
        .obj [("content", .obj [("parts", .arr [
          .obj [("text", .str "A cat.")]])])]])])⟩) "k" 3
      ⟨false, [⟨some "image", false, [0]⟩]⟩ =
      ⟨.ok ⟨"A cat.", modelLabel, 3⟩, 1⟩ ∧ 0 ≤ (3 : Int) :=
  upload_success_response_shape _ _ _ _ _ _ _ _ _ _ _ rfl rfl rfl rfl

/-! ### Claim C4 -/

/-- Claim C4 counterexample: an upstream response with a non-success
status does not always yield HTTP 500 — when its body makes the diagnostic
preview slice cut a multi-byte character, the handler panics before the
status is even inspected, and no 500 is returned. -/
theorem upload_upstream_error_panic_case :
    upload_image (fun _ => some ()) (fun _ => some []) (fun _ => "")
      (fun _ => .response ⟨404, badBody, none⟩) "k" 3
      ⟨false, [⟨some "image", false, [0]⟩]⟩ = ⟨.panic, 1⟩ := by
  unfold upload_image generate_caption
  simp [badBody_panics]

/-- Claim C4 (amended): when the upstream responds with a non-2xx status
and the preview slice of its body falls on a character boundary (e.g. a
body of at most 500 bytes), the caption client returns the
`API Error {status}: {body}` error carrying that status and the raw body,
and the handler answers a bare HTTP 500 — an `errStatus` outcome carries
no body, hence no `caption` field; without the boundary proviso the
handler can panic instead. -/
theorem upload_upstream_error_500 {Img : Type}
    (decode : List Nat → Option Img) (encodeJpeg : Img → Option (List Nat))
    (b64 : List Nat → String) (net : HttpRequest → NetResult)
    (api_key : String) (t : Nat) (f : RawField) (rest : List RawField)
    (img : Img) (jb : List Nat) (r : Upstream)
    (hread : f.readErr = false) (hdec : decode f.data = some img)
    (henc : encodeJpeg img = some jb)
    (hnet : net (buildRequest (b64 jb) api_key) = .response r)
    (hst : statusIsSuccess r.status = false)
    (hbd : previewPanics r.body = false) :
    generate_caption net (b64 jb) api_key =
      .err (.apiError r.status r.body) ∧
    upload_image decode encodeJpeg b64 net api_key t ⟨false, f :: rest⟩ =
      ⟨.errStatus 500, 1⟩ := by
  have hg : generate_caption net (b64 jb) api_key =
      .err (.apiError r.status r.body) := by
    unfold generate_caption
    rw [hnet]
    simp [hbd, hst]
  refine ⟨hg, ?_⟩
  unfold upload_image
  simp [hread, hdec, henc, hg]

/-- Claim C4 witness: a concrete 404 with a short ASCII body. -/
theorem upload_upstream_error_500_witness :
    generate_caption (fun _ => .response ⟨404, ['n', 'o'], none⟩) "" "k" =
      .err (.apiError 404 ['n', 'o']) ∧
    upload_image (fun _ => some ()) (fun _ => some []) (fun _ => "")
      (fun _ => .response ⟨404, ['n', 'o'], none⟩) "k" 3
      ⟨false, [⟨some "image", false, [0]⟩]⟩ = ⟨.errStatus 500, 1⟩ :=
  upload_upstream_error_500 (fun _ => (some () : Option Unit))
    (fun _ => some []) (fun _ => "")
    (fun _ => .response ⟨404, ['n', 'o'], none⟩) "k" 3
    ⟨some "image", false, [0]⟩ [] () [] ⟨404, ['n', 'o'], none⟩
    rfl rfl rfl rfl (by decide) (by decide)

/-! ### Claim C5 -/

/-- Claim C5 counterexample: a success-status upstream response whose body
is not valid JSON does not always yield HTTP 500 — when the body also
makes the preview slice cut a multi-byte character the handler panics
first. -/
theorem upload_malformed_response_panic_case :
    upload_image (fun _ => some ()) (fun _ => some []) (fun _ => "")
      (fun _ => .response ⟨200, badBody, none⟩) "k" 3
      ⟨false, [⟨some "image", false, [0]⟩]⟩ = ⟨.panic, 1⟩ := by
  unfold upload_image generate_caption
  simp [badBody_panics]

/-- Claim C5 (amended): when the upstream responds with a 2xx status, the
preview slice of its body falls on a character boundary, and either the
body is not valid JSON or the value at
`candidates[0].content.parts[0].text` is absent or not a string, the
caption client returns an error and the handler answers HTTP 500; without
the boundary proviso the handler can panic instead. -/
theorem upload_malformed_response_500 {Img : Type}
    (decode : List Nat → Option Img) (encodeJpeg : Img → Option (List Nat))
    (b64 : List Nat → String) (net : HttpRequest → NetResult)
    (api_key : String) (t : Nat) (f : RawField) (rest : List RawField)
    (img : Img) (jb : List Nat) (r : Upstream)
    (hread : f.readErr = false) (hdec : decode f.data = some img)
    (henc : encodeJpeg img = some jb)
    (hnet : net (buildRequest (b64 jb) api_key) = .response r)
    (hst : statusIsSuccess r.status = true)
    (hbd : previewPanics r.body = false)
    (hcap : r.parsed.bind extractCaption = none) :
    upload_image decode encodeJpeg b64 net api_key t ⟨false, f :: rest⟩ =
      ⟨.errStatus 500, 1⟩ := by
  have hg : ∃ e, generate_caption net (b64 jb) api_key = .err e := by
    unfold generate_caption
    rw [hnet]
    simp only [hbd, hst, Bool.false_eq_true, if_false, if_true]
    match hp : r.parsed with
    | none => exact ⟨.jsonParse, rfl⟩
    | some j =>
      have hx : extractCaption j = none := by
        rw [hp] at hcap
        simpa using hcap
      exact ⟨.noCaption, by simp [hx]⟩
  obtain ⟨e, hg⟩ := hg
  unfold upload_image
  simp [hread, hdec, henc, hg]

/-- Claim C5 witness: a concrete 200 whose body parses to a JSON object
without the caption path. -/
theorem upload_malformed_response_500_witness :
    upload_image (fun _ => some ()) (fun _ => some []) (fun _ => "")
      (fun _ => .response ⟨200, ['o', 'k'], some (.obj [])⟩) "k" 3
      ⟨false, [⟨some "image", false, [0]⟩]⟩ = ⟨.errStatus 500, 1⟩ :=
  upload_malformed_response_500 (fun _ => (some () : Option Unit))
    (fun _ => some []) (fun _ => "")
    (fun _ => .response ⟨200, ['o', 'k'], some (.obj [])⟩) "k" 3
    ⟨some "image", false, [0]⟩ [] () []
    ⟨200, ['o', 'k'], some (.obj [])⟩ rfl rfl rfl rfl
    (by decide) (by decide) rfl

/-! ### Claim C6 -/

/-- Claim C6 counterexample: not every failure is converted to a status
code — when `multipart.next_field().await` returns `Err`, the handler
`unwrap`s it and panics instead of answering 400 or 500. -/
theorem upload_handler_panics_on_stream_error :
    upload_image (fun _ => (some () : Option Unit)) (fun _ => some [])
      (fun _ => "") (fun _ => .transportErr) "k" 7 ⟨true, []⟩ =
      ⟨.panic, 0⟩ := rfl

/-- Claim C6 (amended): provided the multipart stream itself reads
cleanly (`next_field` and `bytes()` do not error — the handler `unwrap`s
both) and every upstream response body keeps the preview slice on a
character boundary, the handler never panics and every failure is
converted to a coarse status that is exactly 400 or 500, with no partial
result. -/
theorem upload_coarse_status_no_panic {Img : Type}
    (decode : List Nat → Option Img) (encodeJpeg : Img → Option (List Nat))
    (b64 : List Nat → String) (net : HttpRequest → NetResult)
    (api_key : String) (t : Nat) (mp : MultipartBody)
    (hne : mp.nextErr = false)
    (hread : ∀ f rest, mp.fields = f :: rest → f.readErr = false)
    (hnetok : ∀ q r, net q = .response r → previewPanics r.body = false) :
    (upload_image decode encodeJpeg b64 net api_key t mp).outcome ≠
      .panic ∧
    (∀ c, (upload_image decode encodeJpeg b64 net api_key t mp).outcome =
      .errStatus c → c = 400 ∨ c = 500) := by
  obtain ⟨ne, fields⟩ := mp
  simp only at hne
  subst hne
  cases fields with
  | nil =>
    constructor
    · simp [upload_image]
    · intro c hc
      simp [upload_image] at hc
      omega
  | cons f rest =>
    have hr : f.readErr = false := hread f rest rfl
    cases hdec : decode f.data with
    | none =>
      constructor
      · simp [upload_image, hr, hdec]
      · intro c hc
        simp [upload_image, hr, hdec] at hc
        omega
    | some img =>
      cases henc : encodeJpeg img with
      | none =>
        constructor
        · simp [upload_image, hr, hdec, henc]
        · intro c hc
          simp [upload_image, hr, hdec, henc] at hc
          omega
      | some jb =>
        have hgen : generate_caption net (b64 jb) api_key ≠ .panic := by
          unfold generate_caption
          cases hn : net (buildRequest (b64 jb) api_key) with
          | transportErr => simp
          | response r =>
            have hb := hnetok _ r hn
            simp only [hb, Bool.false_eq_true, if_false]
            cases hs : statusIsSuccess r.status with
            | false => simp
            | true =>
              simp only [if_true]
              cases hp : r.parsed with
              | none => simp
              | some j =>
                cases hx : extractCaption j with
                | none => simp [hp, hx]
                | some c => simp [hp, hx]
        cases hg : generate_caption net (b64 jb) api_key with
        | panic => exact absurd hg hgen
        | err e =>
          constructor
          · simp [upload_image, hr, hdec, henc, hg]
          · intro c hc
            simp [upload_image, hr, hdec, henc, hg] at hc
            omega
        | ok c =>
          constructor
          · simp [upload_image, hr, hdec, henc, hg]
          · intro c' hc
            simp [upload_image, hr, hdec, henc, hg] at hc

/-- Claim C6 witness: a clean empty body with an unreachable transport. -/
theorem upload_coarse_status_no_panic_witness :
    (upload_image (fun _ => (some () : Option Unit)) (fun _ => some [])
      (fun _ => "") (fun _ => .transportErr) "k" 7
      ⟨false, []⟩).outcome ≠ .panic :=
  (upload_coarse_status_no_panic (fun _ => (some () : Option Unit))
    (fun _ => some []) (fun _ => "") (fun _ => .transportErr) "k" 7
    ⟨false, []⟩ rfl (fun _ _ h => nomatch h)
    (fun _ _ h => nomatch h)).1

/-! ### Claim C7 -/

/-- Claim C7: for every base64 image and credential, the one outbound
request is a POST to the fixed endpoint with the credential only as the
`?key=` query parameter, carrying the fixed instruction prompt and the
inline image payload tagged `image/jpeg`; the JSON body is identical for
every credential, so the credential never appears in it. -/
theorem request_shape_and_credential_placement (img key : String) :
    buildRequest img key =
      { url := geminiEndpoint ++ "?key=" ++ key
        contentType := "application/json"
        body := .obj [("contents", .arr [
          .obj [("parts", .arr [
            .obj [("text", .str
              "Describe this image in detail. Provide a clear, descriptive caption.")],
            .obj [("inline_data", .obj [
              ("mime_type", .str "image/jpeg"),
              ("data", .str img)])]])]])] } ∧
    (∀ key', (buildRequest img key').body = (buildRequest img key).body) :=
  ⟨rfl, fun _ => rfl⟩

/-! ### Claim C8 -/

/-- Claim C8: every run of the handler issues at most one outbound POST,
and exactly one is issued whenever normalization succeeds (the multipart
field reads cleanly, the image decodes, and re-encoding succeeds); no path
re-issues the request. -/
theorem at_most_one_network_call {Img : Type}
    (decode : List Nat → Option Img) (encodeJpeg : Img → Option (List Nat))
    (b64 : List Nat → String) (net : HttpRequest → NetResult)
    (api_key : String) (t : Nat) (mp : MultipartBody) :
    (upload_image decode encodeJpeg b64 net api_key t mp).netCalls ≤ 1 ∧
    (∀ f rest img jb, mp.nextErr = false → mp.fields = f :: rest →
      f.readErr = false → decode f.data = some img →
      encodeJpeg img = some jb →
      (upload_image decode encodeJpeg b64 net api_key t mp).netCalls = 1) := by
  constructor
  · unfold upload_image
    repeat' split
    all_goals simp
  · intro f rest img jb hne hf hread hdec henc
    obtain ⟨ne, fields⟩ := mp
    simp only at hne hf
    subst hne
    subst hf
    unfold upload_image
    simp only [Bool.false_eq_true, if_false, hread, hdec, henc]
    match generate_caption net (b64 jb) api_key with
    | .panic => rfl
    | .err e => rfl
    | .ok c => rfl

/-- Claim C8 witness: a concrete run in which normalization succeeds and
exactly one call is issued. -/
theorem at_most_one_network_call_witness :
    (upload_image (fun _ => (some () : Option Unit)) (fun _ => some [])
      (fun _ => "") (fun _ => .transportErr) "k" 3
      ⟨false, [⟨some "image", false, [0]⟩]⟩).netCalls = 1 :=
  (at_most_one_network_call (fun _ => (some () : Option Unit))
    (fun _ => some []) (fun _ => "") (fun _ => .transportErr) "k" 3
    ⟨false, [⟨some "image", false, [0]⟩]⟩).2
    ⟨some "image", false, [0]⟩ [] () [] rfl rfl rfl rfl rfl

/-! ### Claim C10 -/

/-- Claim C10: the handler never inspects a field's name and never reads a
second field — the run on any body whose first field has name `n` and
trailing fields `rest` equals the run on the singleton body holding the
same bytes under any other name `n'`; and the missing-file 400 arises
exactly from the zero-field body. -/
theorem first_field_decides_outcome {Img : Type}
    (decode : List Nat → Option Img) (encodeJpeg : Img → Option (List Nat))
    (b64 : List Nat → String) (net : HttpRequest → NetResult)
    (api_key : String) (t : Nat) (n n' : Option String) (re : Bool)
    (d : List Nat) (rest : List RawField) :
    upload_image decode encodeJpeg b64 net api_key t
        ⟨false, ⟨n, re, d⟩ :: rest⟩ =
      upload_image decode encodeJpeg b64 net api_key t
        ⟨false, [⟨n', re, d⟩]⟩ ∧
    upload_image decode encodeJpeg b64 net api_key t ⟨false, []⟩ =
      ⟨.errStatus 400, 0⟩ :=
  ⟨rfl, rfl⟩

end Captioner
